import Mathlib

/-!
Shallow embedding of the BORGA in-memory data-access layer
(`borga-data-mem.js`, here `src/unnamed/part_001`) and of the request
validation middleware of the web-api layer (`borga-web-api.js`, here
`src/unnamed/part_000`).

JavaScript objects used as string-keyed maps are modelled as insertion-ordered
association lists (`JsMap`): property read is first-match lookup, property
write replaces the value in place when the key exists and appends otherwise,
`delete` removes the key's entry.  JavaScript truthiness is modelled
explicitly where the source branches on it (`undefined` and the empty string
are falsy; objects are always truthy).  Functions that throw return
`Except`; mutating storage functions return the resulting store together
with the `Except` outcome, so that mutations that happen before a throw
(as in `addGameToGroup`, which writes the catalog before resolving the
group) are kept, exactly as in the source.
-/

namespace Borga

abbrev JsMap (α : Type) : Type := List (String × α)

/-- Property read `m[k]`: first entry with key `k`, `none` for `undefined`. -/
def JsMap.get {α : Type} : JsMap α → String → Option α
  | [], _ => none
  | (k', v) :: rest, k => if k' = k then some v else JsMap.get rest k

/-- Property write `m[k] = v`: replace in place if the key exists, else append. -/
def JsMap.set {α : Type} : JsMap α → String → α → JsMap α
  | [], k, v => [(k, v)]
  | (k', v') :: rest, k, v =>
    if k' = k then (k', v) :: rest else (k', v') :: JsMap.set rest k v

/-- `delete m[k]`: remove the entry with key `k`. -/
def JsMap.del {α : Type} : JsMap α → String → JsMap α
  | [], _ => []
  | (k', v') :: rest, k => if k' = k then rest else (k', v') :: JsMap.del rest k

/-- Keys of the map, in order. -/
def JsMap.keys {α : Type} (m : JsMap α) : List String := m.map Prod.fst

/-- Game record supplied by the external catalog collaborator.  The storage
layer reads only `id` and `name`; the remaining fields
(`url`, `image`, `publisher`, `amazon_rank`, `price`) are opaque
pass-through and are collapsed into the single opaque field `rest`. -/
structure Game where
  id : String
  name : String
  rest : String
deriving DecidableEq, Repr

/-- Group object: `{name, description, games}` where `games` maps
`gameId → gameName`.  `name` and `description` are JS values that
`editGroup` can set to `undefined`, hence `Option String`. -/
structure Group where
  name : Option String
  description : Option String
  games : JsMap String
deriving DecidableEq, Repr

/-- User object: `{name, groups}`. -/
structure User where
  name : String
  groups : JsMap Group
deriving DecidableEq, Repr

/-- The three process-wide collections of `borga-data-mem.js`:
`users : userId → userObj`, `games : gameId → gameObj` (shared catalog),
`tokens : token → userId`. -/
structure Store where
  users : JsMap User
  games : JsMap Game
  tokens : JsMap String
deriving DecidableEq, Repr

/-- Error kinds of the application error taxonomy. -/
inductive ErrName
  | NOT_FOUND
  | ALREADY_EXISTS
  | BAD_REQUEST
  | UNAUTHENTICATED
  | MISSING_PARAM
  | EXT_SVC_FAIL
  | FAIL
deriving DecidableEq, Repr

/-- Modelled from the spec: the error module `borga-errors.js` is not among
the sources; per spec section 7 every error value carries a kind and a
structured context payload (offending ids / field-to-reason map), matching
the call sites `errors.NOT_FOUND({userId})`, `errors.ALREADY_EXISTS({groupId})`
and `errors.BAD_REQUEST(info)` in the sources. -/
structure Err where
  name : ErrName
  info : JsMap String
deriving DecidableEq, Repr

instance {ε α : Type} [DecidableEq ε] [DecidableEq α] :
    DecidableEq (Except ε α)
  | .error e, .error e' =>
    if h : e = e' then isTrue (by rw [h])
    else isFalse (by intro hh; cases hh; exact h rfl)
  | .error _, .ok _ => isFalse (by intro h; cases h)
  | .ok _, .error _ => isFalse (by intro h; cases h)
  | .ok a, .ok b =>
    if h : a = b then isTrue (by rw [h])
    else isFalse (by intro hh; cases hh; exact h rfl)

/-- `createUserObj(userName)`. -/
def createUserObj (userName : String) : User :=
  { name := userName, groups := [] }

/-- `createGroupObj(groupName, groupDescription)`. -/
def createGroupObj (groupName groupDescription : String) : Group :=
  { name := some groupName, description := some groupDescription, games := [] }

/-- Initial `users` object: three starting users. -/
def initUsers : JsMap User :=
  [("A48280", createUserObj "André Jesus"),
   ("A48287", createUserObj "Nyckollas Brandão"),
   ("A48309", createUserObj "André Santos")]

/-- Initial `tokens` object: three pre-issued tokens. -/
def initTokens : JsMap String :=
  [("4869fdf7-0e62-46a2-872c-f0dc60fc2c81", "A48280"),
   ("3e39bce8-07d1-4c05-9ee3-5587e6b8e2e7", "A48287"),
   ("5d389af1-06db-4401-8aef-36d8d6428f31", "A48309")]

/-- The module-load state: seeded `users` and `tokens`, empty `games` catalog. -/
def initStore : Store :=
  { users := initUsers, games := [], tokens := initTokens }

/-- `getUser(userId)`: NOT_FOUND if absent (user objects are always truthy). -/
def getUser (s : Store) (userId : String) : Except Err User :=
  match JsMap.get s.users userId with
  | none => .error ⟨.NOT_FOUND, [("userId", userId)]⟩
  | some userObj => .ok userObj

/-- `getGroupFromUser(userId, groupId)`. -/
def getGroupFromUser (s : Store) (userId groupId : String) : Except Err Group :=
  match getUser s userId with
  | .error e => .error e
  | .ok u =>
    match JsMap.get u.groups groupId with
    | none => .error ⟨.NOT_FOUND, [("groupId", groupId)]⟩
    | some groupObj => .ok groupObj

/-- JS truthiness of a possibly-undefined string (`undefined` and `""` are falsy). -/
def strTruthy : Option String → Bool
  | none => false
  | some s => !(s == "")

/-- `getGameFromGroup(userId, groupId, gameId)`: the group's reference
`gameName` and the catalog record `game` are both looked up, and
`if (!game | !gameName) throw NOT_FOUND` (bitwise or of the two
truthiness tests, equivalent to boolean or here). -/
def getGameFromGroup (s : Store) (userId groupId gameId : String) : Except Err Game :=
  match getGroupFromUser s userId groupId with
  | .error e => .error e
  | .ok g =>
    let gameName := JsMap.get g.games gameId
    match JsMap.get s.games gameId with
    | none => .error ⟨.NOT_FOUND, [("gameId", gameId)]⟩
    | some game =>
      if strTruthy gameName then .ok game
      else .error ⟨.NOT_FOUND, [("gameId", gameId)]⟩

/-- `tokenToUserId(token)`: plain lookup, `undefined` when unknown. -/
def tokenToUserId (s : Store) (token : String) : Option String :=
  JsMap.get s.tokens token

/-- Returned by `createNewUser`: `{ userId, token, userName }`. -/
structure CreatedUser where
  userId : String
  token : String
  userName : String
deriving DecidableEq, Repr

/-- Returned by `addGroupToUser` / `createGroup` / `deleteGroup`:
`{ groupId, groupName, groupDescription }`. -/
structure GroupInfo where
  groupId : String
  groupName : Option String
  groupDescription : Option String
deriving DecidableEq, Repr

/-- Returned by `editGroup`: `{ groupId, newGroupName, newGroupDescription }`. -/
structure EditInfo where
  groupId : String
  newGroupName : Option String
  newGroupDescription : Option String
deriving DecidableEq, Repr

/-- `createNewUser(userId, userName)`.  `crypto.randomUUID()` is modelled as
the extra argument `token` (an externally supplied fresh value); the source
records `tokens[token] = userId` and `users[userId] = createUserObj(userName)`
after the ALREADY_EXISTS check. -/
def createNewUser (s : Store) (userId userName token : String) :
    Store × Except Err CreatedUser :=
  if (JsMap.get s.users userId).isSome then
    (s, .error ⟨.ALREADY_EXISTS, [("userId", userId)]⟩)
  else
    ({ s with
        tokens := JsMap.set s.tokens token userId,
        users := JsMap.set s.users userId (createUserObj userName) },
     .ok { userId := userId, token := token, userName := userName })

/-- `addGroupToUser(userId, groupId, groupObj)`:
`getUser(userId).groups[groupId] = groupObj`. -/
def addGroupToUser (s : Store) (userId groupId : String) (groupObj : Group) :
    Store × Except Err GroupInfo :=
  match JsMap.get s.users userId with
  | none => (s, .error ⟨.NOT_FOUND, [("userId", userId)]⟩)
  | some u =>
    let u2 := { u with groups := JsMap.set u.groups groupId groupObj }
    ({ s with users := JsMap.set s.users userId u2 },
     .ok { groupId := groupId, groupName := groupObj.name,
           groupDescription := groupObj.description })

/-- `createGroup(userId, groupId, groupName, groupDescription)`. -/
def createGroup (s : Store) (userId groupId groupName groupDescription : String) :
    Store × Except Err GroupInfo :=
  match JsMap.get s.users userId with
  | none => (s, .error ⟨.NOT_FOUND, [("userId", userId)]⟩)
  | some u =>
    if (JsMap.get u.groups groupId).isSome then
      (s, .error ⟨.ALREADY_EXISTS, [("groupId", groupId)]⟩)
    else
      addGroupToUser s userId groupId (createGroupObj groupName groupDescription)

/-- `editGroup(userId, groupId, newGroupName, newGroupDescription)`:
resolves the group (NOT_FOUND via `getGroupFromUser` if user or group is
absent) and then assigns `group.name = newGroupName` and
`group.description = newGroupDescription` unconditionally; the in-place
mutation of the group reference is modelled by writing the updated group
back into the user's `groups` map. -/
def editGroup (s : Store) (userId groupId : String)
    (newGroupName newGroupDescription : Option String) :
    Store × Except Err EditInfo :=
  match JsMap.get s.users userId with
  | none => (s, .error ⟨.NOT_FOUND, [("userId", userId)]⟩)
  | some u =>
    match JsMap.get u.groups groupId with
    | none => (s, .error ⟨.NOT_FOUND, [("groupId", groupId)]⟩)
    | some g =>
      let g2 := { g with name := newGroupName, description := newGroupDescription }
      let u2 := { u with groups := JsMap.set u.groups groupId g2 }
      ({ s with users := JsMap.set s.users userId u2 },
       .ok { groupId := groupId, newGroupName := newGroupName,
             newGroupDescription := newGroupDescription })

/-- `listUserGroups(userId)`. -/
def listUserGroups (s : Store) (userId : String) : Except Err (JsMap Group) :=
  match getUser s userId with
  | .error e => .error e
  | .ok u => .ok u.groups

/-- `deleteGroup(userId, groupId)`: resolves the group, then
`delete getUser(userId).groups[groupId]`. -/
def deleteGroup (s : Store) (userId groupId : String) :
    Store × Except Err GroupInfo :=
  match JsMap.get s.users userId with
  | none => (s, .error ⟨.NOT_FOUND, [("userId", userId)]⟩)
  | some u =>
    match JsMap.get u.groups groupId with
    | none => (s, .error ⟨.NOT_FOUND, [("groupId", groupId)]⟩)
    | some g =>
      let u2 := { u with groups := JsMap.del u.groups groupId }
      ({ s with users := JsMap.set s.users userId u2 },
       .ok { groupId := groupId, groupName := g.name,
             groupDescription := g.description })

/-- `getGroupDetails(groupObj)`: identity. -/
def getGroupDetails (groupObj : Group) : Group := groupObj

/-- `addGameToGroup(userId, groupId, gameObj)`: writes the shared catalog
(`games[gameId] = gameObj`) BEFORE resolving the group, so the catalog
write persists even when the user or group lookup throws NOT_FOUND;
on success inserts `gameId → gameObj.name` into the group's game map. -/
def addGameToGroup (s : Store) (userId groupId : String) (gameObj : Game) :
    Store × Except Err Game :=
  let s1 := { s with games := JsMap.set s.games gameObj.id gameObj }
  match JsMap.get s1.users userId with
  | none => (s1, .error ⟨.NOT_FOUND, [("userId", userId)]⟩)
  | some u =>
    match JsMap.get u.groups groupId with
    | none => (s1, .error ⟨.NOT_FOUND, [("groupId", groupId)]⟩)
    | some g =>
      let g2 := { g with games := JsMap.set g.games gameObj.id gameObj.name }
      let u2 := { u with groups := JsMap.set u.groups groupId g2 }
      ({ s1 with users := JsMap.set s1.users userId u2 },
       .ok gameObj)

/-- `removeGameFromGroup(userId, groupId, gameId)`: resolves via
`getGameFromGroup` (which throws NOT_FOUND when the reference is missing
from this group or falsy, or the record is missing from the catalog),
then deletes the reference from the group's game map. -/
def removeGameFromGroup (s : Store) (userId groupId gameId : String) :
    Store × Except Err Game :=
  match getGameFromGroup s userId groupId gameId with
  | .error e => (s, .error e)
  | .ok game =>
    match JsMap.get s.users userId with
    | none => (s, .error ⟨.NOT_FOUND, [("userId", userId)]⟩)
    | some u =>
      match JsMap.get u.groups groupId with
      | none => (s, .error ⟨.NOT_FOUND, [("groupId", groupId)]⟩)
      | some g =>
        let g2 := { g with games := JsMap.del g.games gameId }
        let u2 := { u with groups := JsMap.set u.groups groupId g2 }
        ({ s with users := JsMap.set s.users userId u2 },
         .ok game)

/-- `resetMem()`: `users = {}; tokens = {}` — the `games` catalog is a
`const` binding and is not touched. -/
def resetMem (s : Store) : Store :=
  { s with users := [], tokens := [] }

/-- `resetAllGroups()`: assigns `{}` to every user's `groups`. -/
def resetAllGroups (s : Store) : Store :=
  { s with users := s.users.map (fun e => (e.1, { e.2 with groups := [] })) }

/-- `numberOfPopularGames`. -/
def numberOfPopularGames : Nat := 20

/-- One step of the occurrence count:
`gameOccurrences[gameName] = currentCount ? currentCount + 1 : 1`
(ternary on JS truthiness of the possibly-undefined count). -/
def occStep (occ : JsMap Nat) (gameId : String) : JsMap Nat :=
  let currentCount := JsMap.get occ gameId
  JsMap.set occ gameId
    (match currentCount with
     | some c => if c = 0 then 1 else c + 1
     | none => 1)

/-- The triple `for..in` loop of `getPopularGames`, counting how often each
`gameId` key occurs across all groups of all users.  The source looks every
key up again via `getUser`/`getGroupFromUser`, which on the just-enumerated
keys yields the enumerated objects themselves. -/
def gameOccurrences (s : Store) : JsMap Nat :=
  s.users.foldl
    (fun occ ue =>
      ue.2.groups.foldl
        (fun occ ge =>
          ge.2.games.foldl (fun occ game => occStep occ game.1) occ)
        occ)
    []

/-- Stable insertion of an entry into a list sorted by descending count:
the entry goes after every already-placed entry of greater or equal count. -/
def insertDesc (x : String × Nat) : List (String × Nat) → List (String × Nat)
  | [] => [x]
  | y :: ys => if y.2 < x.2 then x :: y :: ys else y :: insertDesc x ys

/-- `Object.entries(gameOccurrences).sort(([, a], [, b]) => b - a)`:
a stable sort by descending count (`Array.prototype.sort` is stable),
modelled as stable insertion sort. -/
def sortByCountDesc (l : List (String × Nat)) : List (String × Nat) :=
  l.foldl (fun acc x => insertDesc x acc) []

/-- `Object.fromEntries(entries)` over possibly-undefined entries: throws
`TypeError` at the first entry that is not an object (in particular at
`undefined`), otherwise assigns the pairs left to right. -/
def fromEntriesGo (acc : JsMap Game) :
    List (Option (String × Game)) → Except String (JsMap Game)
  | [] => .ok acc
  | none :: _ => .error "Iterator value undefined is not an entry object"
  | some (k, v) :: rest => fromEntriesGo (JsMap.set acc k v) rest

/-- `Object.fromEntries` starting from the empty object. -/
def fromEntriesJs (l : List (Option (String × Game))) : Except String (JsMap Game) :=
  fromEntriesGo [] l

/-- `getPopularGames()`: counts occurrences, sorts by descending count,
takes the first 20, and then maps
`game => {[game[0], games[game[0]]]}` — an arrow function whose body is a
BLOCK containing a bare array expression, not a returned value, so the
callback returns `undefined` for every element — before feeding the result
to `Object.fromEntries`, which consequently throws `TypeError` whenever
there is at least one entry. -/
def getPopularGames (s : Store) : Except String (JsMap Game) :=
  let sortedGames := (sortByCountDesc (gameOccurrences s)).take numberOfPopularGames
  fromEntriesJs (sortedGames.map (fun _ => (none : Option (String × Game))))

/-- A JavaScript request-body value, as far as `typeof` and truthiness
distinguish them in `validateRequest`. -/
inductive JsVal
  | str (s : String)
  | num (n : Int)
  | bool (b : Bool)
deriving DecidableEq, Repr

/-- `typeof value` for a present value. -/
def typeofJs : JsVal → String
  | .str _ => "string"
  | .num _ => "number"
  | .bool _ => "boolean"

/-- JS truthiness of a present value (`""`, `0` and `false` are falsy). -/
def jsTruthy : JsVal → Bool
  | .str s => !(s == "")
  | .num n => !(n == 0)
  | .bool b => b

/-- `typeof req.body[p]`, `undefined` when absent. -/
def typeofOpt : Option JsVal → String
  | none => "undefined"
  | some v => typeofJs v

/-- Truthiness of `req.body[p]` (absent properties are falsy). -/
def jsTruthyOpt : Option JsVal → Bool
  | none => false
  | some v => jsTruthy v

/-- One entry of `schema.body`: `{ type, required }`. -/
structure PropSchema where
  type : String
  required : Bool
deriving DecidableEq, Repr

/-- `schema.query`: `{ params, required }`. -/
structure QuerySchema where
  params : List String
  required : List String
deriving DecidableEq, Repr

/-- A `validateRequest` schema: optional query part and optional body part. -/
structure ReqSchema where
  query : Option QuerySchema
  body : Option (JsMap PropSchema)
deriving DecidableEq, Repr

/-- First body loop of `validateRequest`: for a schema property `e`,
`if (required && !value) info[p] = "required property missing";
else if (value && typeof value !== type) info[p] = "wrong type. ..."`. -/
def validateBodyStep (body : JsMap JsVal) (info : JsMap String)
    (e : String × PropSchema) : JsMap String :=
  let value := JsMap.get body e.1
  if e.2.required && !(jsTruthyOpt value) then
    JsMap.set info e.1 "required property missing"
  else if jsTruthyOpt value && !(typeofOpt value == e.2.type) then
    JsMap.set info e.1
      ("wrong type. expected " ++ e.2.type ++ ". instead got " ++ typeofOpt value)
  else info

/-- Second body loop of `validateRequest`: any body property not in the
schema is flagged `"unknown body property"`. -/
def validateUnknownStep (schemaBody : JsMap PropSchema) (info : JsMap String)
    (e : String × JsVal) : JsMap String :=
  if (JsMap.get schemaBody e.1).isNone then
    JsMap.set info e.1 "unknown body property"
  else info

/-- Query part of `validateRequest`: required query parameters that are
absent or empty are flagged, then query parameters outside `params`. -/
def validateQuery (qs : QuerySchema) (query : JsMap String)
    (info0 : JsMap String) : JsMap String :=
  let info1 := qs.required.foldl
    (fun info param =>
      if !(strTruthy (JsMap.get query param)) then
        JsMap.set info param "required parameter missing"
      else info)
    info0
  query.foldl
    (fun info e =>
      if !(qs.params.contains e.1) then
        JsMap.set info e.1 "unknown query parameter"
      else info)
    info1

/-- The `info` accumulator after the query section of `validateRequest`. -/
def queryInfo (schema : ReqSchema) (query : JsMap String) : JsMap String :=
  match schema.query with
  | none => []
  | some qs => validateQuery qs query []

/-- The full `info` accumulator of `validateRequest`: the query section
followed by the two body loops. -/
def requestInfo (schema : ReqSchema) (query : JsMap String)
    (body : JsMap JsVal) : JsMap String :=
  match schema.body with
  | none => queryInfo schema query
  | some sb =>
    body.foldl (validateUnknownStep sb)
      (sb.foldl (validateBodyStep body) (queryInfo schema query))

/-- `validateRequest(schema)` applied to a request with the given query
parameters and body: accumulates all violations into `info` and throws a
single `BAD_REQUEST(info)` when `info` is non-empty
(`Object.keys(info).length > 0`), otherwise passes to the handler. -/
def validateRequest (schema : ReqSchema) (query : JsMap String)
    (body : JsMap JsVal) : Except Err Unit :=
  let info := requestInfo schema query body
  if info.length > 0 then .error ⟨.BAD_REQUEST, info⟩ else .ok ()

/-- Route middleware composition: the validation middleware runs first and,
on failure, responds with the error without calling `next()`, so the
handler (and hence any storage call) never runs and the store is unchanged. -/
def runRoute {α : Type} (schema : ReqSchema) (query : JsMap String)
    (body : JsMap JsVal) (handler : Store → Store × Except Err α)
    (s : Store) : Store × Except Err α :=
  match validateRequest schema query body with
  | .error e => (s, .error e)
  | .ok _ => handler s

/-- Schema of `POST /user/:userId/groups` (createGroup). -/
def createGroupSchema : ReqSchema :=
  { query := none,
    body := some [("groupName", { type := "string", required := true }),
                  ("groupDescription", { type := "string", required := true })] }

/-- Schema of `POST /user/:userId/groups/:groupId` (editGroup). -/
def editGroupSchema : ReqSchema :=
  { query := none,
    body := some [("newGroupName", { type := "string", required := false }),
                  ("newGroupDescription", { type := "string", required := false })] }

/-- Schema of `POST /user` (createNewUser). -/
def createUserSchema : ReqSchema :=
  { query := none,
    body := some [("userId", { type := "string", required := true }),
                  ("userName", { type := "string", required := true }),
                  ("password", { type := "string", required := true })] }

/-- The game record of the repository's own test suite. -/
def game1 : Game :=
  { id := "I9azM1kA6l", name := "Monopoly Skyrim",
    rest := "games.net/skyrim|skyrim.jpg|Bethesda Game Studios|1|420.69" }

/-- A store in the shape the test suite builds before exercising games:
one user `"123456"` with one group `"PG"` that references `game1`,
which is also in the shared catalog. -/
def demoStore : Store :=
  { users := [("123456",
      { name := "Paulão",
        groups := [("PG",
          { name := some "Paulão Games",
            description := some "This is a description",
            games := [(game1.id, game1.name)] })] })],
    games := [(game1.id, game1)],
    tokens := [] }

/-- Like `demoStore` but with the group's game map still empty and the
catalog empty: the pre-add state. -/
def demoStoreNoGame : Store :=
  { users := [("123456",
      { name := "Paulão",
        groups := [("PG",
          { name := some "Paulão Games",
            description := some "This is a description",
            games := [] })] })],
    games := [],
    tokens := [] }

/-- A store whose catalog holds `game1` while the group's game map is
empty: the game is present globally but not referenced in this group. -/
def catalogOnlyStore : Store :=
  { users := demoStoreNoGame.users, games := [(game1.id, game1)], tokens := [] }

/-- Boolean form of the catalog invariant: every `gameId` referenced in any
group of any user is a key of the shared `games` catalog. -/
def storeInv (s : Store) : Bool :=
  s.users.all (fun ue =>
    ue.2.groups.all (fun ge =>
      ge.2.games.all (fun game => (JsMap.get s.games game.1).isSome)))

/-! ### Map lemmas -/

theorem JsMap.get_set_self {α : Type} (m : JsMap α) (k : String) (v : α) :
    JsMap.get (JsMap.set m k v) k = some v := by
  induction m with
  | nil => simp [JsMap.set, JsMap.get]
  | cons e rest ih =>
    obtain ⟨k', v'⟩ := e
    by_cases h : k' = k
    · simp [JsMap.set, JsMap.get, h]
    · simp [JsMap.set, JsMap.get, h, ih]

theorem JsMap.get_set_ne {α : Type} (m : JsMap α) {k x : String} (v : α)
    (h : x ≠ k) : JsMap.get (JsMap.set m k v) x = JsMap.get m x := by
  induction m with
  | nil => simp [JsMap.set, JsMap.get, Ne.symm h]
  | cons e rest ih =>
    obtain ⟨k', v'⟩ := e
    by_cases hk : k' = k
    · subst hk
      simp [JsMap.set, JsMap.get, Ne.symm h]
    · simp [JsMap.set, JsMap.get, hk, ih]

theorem JsMap.get_del_ne {α : Type} (m : JsMap α) {k x : String}
    (h : x ≠ k) : JsMap.get (JsMap.del m k) x = JsMap.get m x := by
  induction m with
  | nil => simp [JsMap.del]
  | cons e rest ih =>
    obtain ⟨k', v'⟩ := e
    by_cases hk : k' = k
    · subst hk
      simp [JsMap.del, JsMap.get, Ne.symm h]
    · simp [JsMap.del, JsMap.get, hk, ih]

theorem JsMap.del_set_of_get_none {α : Type} (m : JsMap α) {k : String} (v : α)
    (h : JsMap.get m k = none) : JsMap.del (JsMap.set m k v) k = m := by
  induction m with
  | nil => simp [JsMap.set, JsMap.del]
  | cons e rest ih =>
    obtain ⟨k', v'⟩ := e
    by_cases hk : k' = k
    · subst hk
      simp [JsMap.get] at h
    · simp [JsMap.get, hk] at h
      simp [JsMap.set, JsMap.del, hk, ih h]

theorem JsMap.get_mem {α : Type} {m : JsMap α} {k : String} {v : α}
    (h : JsMap.get m k = some v) : (k, v) ∈ m := by
  induction m with
  | nil => simp [JsMap.get] at h
  | cons e rest ih =>
    obtain ⟨k', v'⟩ := e
    by_cases hk : k' = k
    · subst hk
      simp [JsMap.get] at h
      simp [h]
    · simp [JsMap.get, hk] at h
      exact List.mem_cons_of_mem _ (ih h)

theorem JsMap.mem_set_elim {α : Type} {m : JsMap α} {k : String} {v : α}
    {e : String × α} (h : e ∈ JsMap.set m k v) : e ∈ m ∨ e = (k, v) := by
  induction m with
  | nil =>
    simp [JsMap.set] at h
    exact Or.inr h
  | cons hd rest ih =>
    obtain ⟨k', v'⟩ := hd
    by_cases hk : k' = k
    · subst hk
      simp [JsMap.set] at h
      rcases h with h | h
      · exact Or.inr (by simp [h])
      · exact Or.inl (List.mem_cons_of_mem _ h)
    · simp [JsMap.set, hk] at h
      rcases h with h | h
      · exact Or.inl (by simp [h])
      · rcases ih h with h' | h'
        · exact Or.inl (List.mem_cons_of_mem _ h')
        · exact Or.inr h'

theorem JsMap.mem_del_sub {α : Type} {m : JsMap α} {k : String}
    {e : String × α} (h : e ∈ JsMap.del m k) : e ∈ m := by
  induction m with
  | nil => simp [JsMap.del] at h
  | cons hd rest ih =>
    obtain ⟨k', v'⟩ := hd
    by_cases hk : k' = k
    · subst hk
      simp [JsMap.del] at h
      exact List.mem_cons_of_mem _ h
    · simp [JsMap.del, hk] at h
      rcases h with h | h
      · simp [h]
      · exact List.mem_cons_of_mem _ (ih h)

theorem JsMap.get_del_self_of_nodup {α : Type} {m : JsMap α} {k : String}
    (h : (m.map Prod.fst).Nodup) : JsMap.get (JsMap.del m k) k = none := by
  induction m with
  | nil => simp [JsMap.del, JsMap.get]
  | cons hd rest ih =>
    obtain ⟨k', v'⟩ := hd
    simp only [List.map_cons, List.nodup_cons] at h
    by_cases hk : k' = k
    · subst hk
      cases hg : JsMap.get rest k' with
      | none => simp [JsMap.del, hg]
      | some w =>
        exact absurd (List.mem_map_of_mem Prod.fst (JsMap.get_mem hg)) h.1
    · simp [JsMap.del, JsMap.get, hk, ih h.2]

theorem JsMap.get_isSome_set_mono {α : Type} (m : JsMap α) (k x : String)
    (v : α) (h : (JsMap.get m x).isSome) :
    (JsMap.get (JsMap.set m k v) x).isSome := by
  by_cases hx : x = k
  · subst hx
    simp [JsMap.get_set_self]
  · rwa [JsMap.get_set_ne m v hx]

/-! ### Catalog invariant -/

/-- Propositional form of `storeInv`. -/
def InvP (s : Store) : Prop :=
  ∀ ue ∈ s.users, ∀ ge ∈ ue.2.groups, ∀ game ∈ ge.2.games,
    (JsMap.get s.games game.1).isSome = true

theorem storeInv_iff_invP (s : Store) : storeInv s = true ↔ InvP s := by
  simp [storeInv, InvP, List.all_eq_true]

theorem invP_set_user (s : Store) (uid : String) (u2 : User)
    (hs : InvP s)
    (hu2 : ∀ ge ∈ u2.groups, ∀ game ∈ ge.2.games,
      (JsMap.get s.games game.1).isSome = true) :
    InvP { s with users := JsMap.set s.users uid u2 } := by
  intro ue hue ge hge game hgame
  rcases JsMap.mem_set_elim hue with hmem | heq
  · exact hs ue hmem ge hge game hgame
  · subst heq
    exact hu2 ge hge game hgame

theorem invP_games_grow (s : Store) (k : String) (v : Game) (hs : InvP s) :
    InvP { s with games := JsMap.set s.games k v } := by
  intro ue hue ge hge game hgame
  exact JsMap.get_isSome_set_mono _ k _ v (hs ue hue ge hge game hgame)

theorem invP_createNewUser (s : Store) (userId userName token : String)
    (hs : InvP s) : InvP (createNewUser s userId userName token).1 := by
  by_cases h : (JsMap.get s.users userId).isSome
  · simpa [createNewUser, h] using hs
  · simp only [createNewUser, h, Bool.false_eq_true, if_false]
    exact invP_set_user _ _ _ hs (by simp [createUserObj])

theorem invP_addGroupToUser (s : Store) (userId groupId : String)
    (groupObj : Group) (hs : InvP s)
    (hg : ∀ game ∈ groupObj.games, (JsMap.get s.games game.1).isSome = true) :
    InvP (addGroupToUser s userId groupId groupObj).1 := by
  cases hu : JsMap.get s.users userId with
  | none => simpa [addGroupToUser, hu] using hs
  | some u =>
    simp only [addGroupToUser, hu]
    refine invP_set_user _ _ _ hs ?_
    intro ge hge game hgame
    rcases JsMap.mem_set_elim hge with hmem | heq
    · exact hs (userId, u) (JsMap.get_mem hu) ge hmem game hgame
    · subst heq
      exact hg game hgame

theorem invP_createGroup (s : Store)
    (userId groupId groupName groupDescription : String) (hs : InvP s) :
    InvP (createGroup s userId groupId groupName groupDescription).1 := by
  cases hu : JsMap.get s.users userId with
  | none => simpa [createGroup, hu] using hs
  | some u =>
    by_cases hg : (JsMap.get u.groups groupId).isSome
    · simpa [createGroup, hu, hg] using hs
    · simp only [createGroup, hu, hg, Bool.false_eq_true, if_false]
      exact invP_addGroupToUser _ _ _ _ hs (by simp [createGroupObj])

theorem invP_editGroup (s : Store) (userId groupId : String)
    (nn nd : Option String) (hs : InvP s) :
    InvP (editGroup s userId groupId nn nd).1 := by
  cases hu : JsMap.get s.users userId with
  | none => simpa [editGroup, hu] using hs
  | some u =>
    cases hg : JsMap.get u.groups groupId with
    | none => simpa [editGroup, hu, hg] using hs
    | some g =>
      simp only [editGroup, hu, hg]
      refine invP_set_user _ _ _ hs ?_
      intro ge hge game hgame
      rcases JsMap.mem_set_elim hge with hmem | heq
      · exact hs (userId, u) (JsMap.get_mem hu) ge hmem game hgame
      · subst heq
        exact hs (userId, u) (JsMap.get_mem hu) (groupId, g) (JsMap.get_mem hg)
          game hgame

theorem invP_deleteGroup (s : Store) (userId groupId : String) (hs : InvP s) :
    InvP (deleteGroup s userId groupId).1 := by
  cases hu : JsMap.get s.users userId with
  | none => simpa [deleteGroup, hu] using hs
  | some u =>
    cases hg : JsMap.get u.groups groupId with
    | none => simpa [deleteGroup, hu, hg] using hs
    | some g =>
      simp only [deleteGroup, hu, hg]
      refine invP_set_user _ _ _ hs ?_
      intro ge hge game hgame
      exact hs (userId, u) (JsMap.get_mem hu) ge (JsMap.mem_del_sub hge)
        game hgame

theorem invP_addGameToGroup (s : Store) (userId groupId : String)
    (gameObj : Game) (hs : InvP s) :
    InvP (addGameToGroup s userId groupId gameObj).1 := by
  have hs1 : InvP { s with games := JsMap.set s.games gameObj.id gameObj } :=
    invP_games_grow s gameObj.id gameObj hs
  cases hu : JsMap.get s.users userId with
  | none => simpa [addGameToGroup, hu] using hs1
  | some u =>
    cases hg : JsMap.get u.groups groupId with
    | none => simpa [addGameToGroup, hu, hg] using hs1
    | some g =>
      simp only [addGameToGroup, hu, hg]
      refine invP_set_user _ _ _ hs1 ?_
      intro ge hge game hgame
      rcases JsMap.mem_set_elim hge with hmem | heq
      · exact hs1 (userId, u) (JsMap.get_mem hu) ge hmem game hgame
      · subst heq
        rcases JsMap.mem_set_elim hgame with hmem' | heq'
        · exact hs1 (userId, u) (JsMap.get_mem hu) (groupId, g)
            (JsMap.get_mem hg) game hmem'
        · subst heq'
          simp [JsMap.get_set_self]

theorem invP_removeGameFromGroup (s : Store) (userId groupId gameId : String)
    (hs : InvP s) : InvP (removeGameFromGroup s userId groupId gameId).1 := by
  cases hr : getGameFromGroup s userId groupId gameId with
  | error e => simpa [removeGameFromGroup, hr] using hs
  | ok game =>
    cases hu : JsMap.get s.users userId with
    | none => simpa [removeGameFromGroup, hr, hu] using hs
    | some u =>
      cases hg : JsMap.get u.groups groupId with
      | none => simpa [removeGameFromGroup, hr, hu, hg] using hs
      | some g =>
        simp only [removeGameFromGroup, hr, hu, hg]
        refine invP_set_user _ _ _ hs ?_
        intro ge hge game' hgame
        rcases JsMap.mem_set_elim hge with hmem | heq
        · exact hs (userId, u) (JsMap.get_mem hu) ge hmem game' hgame
        · subst heq
          exact hs (userId, u) (JsMap.get_mem hu) (groupId, g)
            (JsMap.get_mem hg) game' (JsMap.mem_del_sub hgame)

theorem invP_resetMem (s : Store) : InvP (resetMem s) := by
  intro ue hue
  simp [resetMem] at hue

theorem invP_resetAllGroups (s : Store) : InvP (resetAllGroups s) := by
  intro ue hue ge hge
  simp only [resetAllGroups, List.mem_map] at hue
  obtain ⟨e, _, rfl⟩ := hue
  simp at hge

/-! ### Validation lemmas -/

theorem JsMap.get_isSome_of_mem_keys {α : Type} {m : JsMap α} {k : String}
    (h : k ∈ m.map Prod.fst) : (JsMap.get m k).isSome := by
  induction m with
  | nil => simp at h
  | cons e rest ih =>
    by_cases hk : e.1 = k
    · cases e
      subst hk
      simp [JsMap.get]
    · cases e
      simp only [List.map_cons, List.mem_cons] at h
      rcases h with h | h
      · exact absurd h.symm hk
      · simpa [JsMap.get, hk] using ih h

theorem JsMap.not_mem_keys_of_get_none {α : Type} {m : JsMap α} {k : String}
    (h : JsMap.get m k = none) : k ∉ m.map Prod.fst := by
  intro hmem
  have := JsMap.get_isSome_of_mem_keys hmem
  rw [h] at this
  cases this

theorem JsMap.length_pos_of_get_some {α : Type} {m : JsMap α} {k : String}
    {v : α} (h : JsMap.get m k = some v) : m.length > 0 := by
  cases m with
  | nil => cases h
  | cons e rest => simp

theorem bodyloop_preserve (body : JsMap JsVal) (sb : JsMap PropSchema)
    {p : String} (hp : p ∉ sb.map Prod.fst) :
    ∀ info, JsMap.get (sb.foldl (validateBodyStep body) info) p =
      JsMap.get info p := by
  induction sb with
  | nil => intro info; rfl
  | cons e rest ih =>
    intro info
    simp only [List.map_cons, List.mem_cons] at hp
    push_neg at hp
    rw [List.foldl_cons, ih hp.2]
    have hne : p ≠ e.1 := hp.1
    by_cases h1 : e.2.required && !(jsTruthyOpt (JsMap.get body e.1))
    · simp [validateBodyStep, h1, JsMap.get_set_ne _ _ hne]
    · by_cases h2 : jsTruthyOpt (JsMap.get body e.1) &&
        !(typeofOpt (JsMap.get body e.1) == e.2.type)
      · simp [validateBodyStep, h1, h2, JsMap.get_set_ne _ _ hne]
      · simp [validateBodyStep, h1, h2]

theorem bodyloop_get (body : JsMap JsVal) (sb : JsMap PropSchema)
    {p : String} {ps : PropSchema} {r : String}
    (hnd : (sb.map Prod.fst).Nodup) (hmem : (p, ps) ∈ sb)
    (hstep : ∀ i : JsMap String,
      validateBodyStep body i (p, ps) = JsMap.set i p r) :
    ∀ info, JsMap.get (sb.foldl (validateBodyStep body) info) p = some r := by
  induction sb with
  | nil => cases hmem
  | cons e rest ih =>
    intro info
    simp only [List.map_cons, List.nodup_cons] at hnd
    rcases List.mem_cons.mp hmem with heq | hmem'
    · have he : e = (p, ps) := heq.symm
      subst he
      rw [List.foldl_cons, hstep info, bodyloop_preserve body rest hnd.1,
        JsMap.get_set_self]
    · rw [List.foldl_cons]
      exact ih hnd.2 hmem' _

theorem unknownloop_preserve (sb : JsMap PropSchema) (body : JsMap JsVal)
    {p : String} (hp : (JsMap.get sb p).isSome) :
    ∀ info, JsMap.get (body.foldl (validateUnknownStep sb) info) p =
      JsMap.get info p := by
  induction body with
  | nil => intro info; rfl
  | cons e rest ih =>
    intro info
    rw [List.foldl_cons, ih]
    by_cases h : (JsMap.get sb e.1).isNone
    · have hne : p ≠ e.1 := by
        intro hh
        rw [hh, Option.isNone_iff_eq_none.mp h] at hp
        cases hp
      simp [validateUnknownStep, h, JsMap.get_set_ne _ _ hne]
    · simp [validateUnknownStep, h]

theorem unknownloop_get (sb : JsMap PropSchema) (body : JsMap JsVal)
    {p : String} (hsb : JsMap.get sb p = none) :
    ∀ info, ((∃ v, (p, v) ∈ body) ∨
        JsMap.get info p = some "unknown body property") →
      JsMap.get (body.foldl (validateUnknownStep sb) info) p =
        some "unknown body property" := by
  induction body with
  | nil =>
    intro info hmem
    rcases hmem with ⟨v, hv⟩ | h
    · cases hv
    · exact h
  | cons e rest ih =>
    intro info hmem
    rw [List.foldl_cons]
    apply ih
    rcases hmem with ⟨v, hv⟩ | h
    · rcases List.mem_cons.mp hv with heq | hmem'
      · right
        have he : e = (p, v) := heq.symm
        subst he
        simp [validateUnknownStep, hsb, JsMap.get_set_self]
      · exact Or.inl ⟨v, hmem'⟩
    · right
      by_cases hstep : (JsMap.get sb e.1).isNone
      · by_cases hpe : p = e.1
        · subst hpe
          simp [validateUnknownStep, hstep, JsMap.get_set_self]
        · simp [validateUnknownStep, hstep, JsMap.get_set_ne _ _ hpe, h]
      · simp [validateUnknownStep, hstep, h]

/-! ### Claim theorems -/

/-- C1: evaluation of `getPopularGames` at the state the repository's own
test suite builds (one user, one group, one referenced game that is in the
catalog): the occurrence count is computed correctly, but the function then
throws `TypeError` from `Object.fromEntries`, because the `map` callback
`game => {[game[0], games[game[0]]]}` is a block body that returns
`undefined` for every entry.  It only returns (the empty object) when no
game is referenced anywhere, contradicting the claim that it returns the
top-20 resolved records and never fails. -/
theorem getPopularGames_throws_on_referenced_game :
    gameOccurrences demoStore = [("I9azM1kA6l", 1)] ∧
    JsMap.get demoStore.games "I9azM1kA6l" = some game1 ∧
    getPopularGames demoStore =
      .error "Iterator value undefined is not an entry object" ∧
    getPopularGames initStore = .ok [] := by decide

/-- C2: evaluation of `editGroup` at a state with a group named
`"Paulão Games"` and description `"This is a description"`: a call that
supplies a new name but leaves the description unspecified (`undefined`)
overwrites the description with `undefined` instead of retaining the prior
value, because the source assigns both fields unconditionally. -/
theorem editGroup_clobbers_unspecified_description :
    getGroupFromUser demoStore "123456" "PG" =
      .ok { name := some "Paulão Games",
            description := some "This is a description",
            games := [(game1.id, game1.name)] } ∧
    (editGroup demoStore "123456" "PG" (some "FPS Games") none).2 =
      .ok { groupId := "PG", newGroupName := some "FPS Games",
            newGroupDescription := none } ∧
    getGroupFromUser (editGroup demoStore "123456" "PG"
        (some "FPS Games") none).1 "123456" "PG" =
      .ok { name := some "FPS Games", description := none,
            games := [(game1.id, game1.name)] } := by decide

/-- C3 counterexample: after `resetMem` on a state whose catalog holds
`game1`, the shared game catalog is NOT empty — it is untouched — refuting
the claim that `resetAll` clears all three collections. -/
theorem resetMem_leaves_catalog_populated :
    (resetMem demoStore).games = [(game1.id, game1)] ∧
    JsMap.get (resetMem demoStore).games "I9azM1kA6l" = some game1 := by decide

/-- C3 amended: `resetMem` empties the users collection and the
token-to-userId mapping (so every subsequent `getUser` fails NOT_FOUND and
every token lookup misses), but leaves the shared game catalog exactly as
it was. -/
theorem resetMem_clears_users_and_tokens (s : Store) :
    (resetMem s).users = [] ∧
    (resetMem s).tokens = [] ∧
    (resetMem s).games = s.games ∧
    (∀ userId, getUser (resetMem s) userId =
      .error ⟨.NOT_FOUND, [("userId", userId)]⟩) ∧
    (∀ token, tokenToUserId (resetMem s) token = none) :=
  ⟨rfl, rfl, rfl, fun _ => rfl, fun _ => rfl⟩

/-- C5: for any state in which `userId` is free, `createNewUser` succeeds,
returns `{userId, token, userName}` (with the supplied fresh token standing
for `crypto.randomUUID()`), stores a user with the given name and an empty
groups map — so a subsequent `getUser` returns that user — and records the
token as mapping to the new `userId`. -/
theorem createNewUser_success_spec (s : Store) (userId userName token : String)
    (h : JsMap.get s.users userId = none) :
    (createNewUser s userId userName token).2 =
      .ok { userId := userId, token := token, userName := userName } ∧
    JsMap.get (createNewUser s userId userName token).1.users userId =
      some { name := userName, groups := [] } ∧
    getUser (createNewUser s userId userName token).1 userId =
      .ok { name := userName, groups := [] } ∧
    JsMap.get (createNewUser s userId userName token).1.tokens token =
      some userId := by
  simp [createNewUser, h, getUser, JsMap.get_set_self, createUserObj]

/-- Witness for C5 at a concrete fresh user on the initial store. -/
theorem createNewUser_success_spec_witness :
    (createNewUser initStore "123456" "Paulão" "tok-1").2 =
      .ok { userId := "123456", token := "tok-1", userName := "Paulão" } ∧
    JsMap.get (createNewUser initStore "123456" "Paulão" "tok-1").1.users
      "123456" = some { name := "Paulão", groups := [] } ∧
    getUser (createNewUser initStore "123456" "Paulão" "tok-1").1 "123456" =
      .ok { name := "Paulão", groups := [] } ∧
    JsMap.get (createNewUser initStore "123456" "Paulão" "tok-1").1.tokens
      "tok-1" = some "123456" :=
  createNewUser_success_spec initStore "123456" "Paulão" "tok-1" (by decide)

/-- C6: for any state in which `userId` is already taken, `createNewUser`
fails with `ALREADY_EXISTS` carrying the conflicting `userId`, and the
returned store is literally the input store — users, games and tokens all
unchanged. -/
theorem createNewUser_already_exists_spec (s : Store)
    (userId userName token : String) (u : User)
    (h : JsMap.get s.users userId = some u) :
    createNewUser s userId userName token =
      (s, .error ⟨.ALREADY_EXISTS, [("userId", userId)]⟩) := by
  simp [createNewUser, h]

/-- Witness for C6 at a seeded user of the initial store. -/
theorem createNewUser_already_exists_spec_witness :
    createNewUser initStore "A48280" "Someone" "tok-2" =
      (initStore, .error ⟨.ALREADY_EXISTS, [("userId", "A48280")]⟩) :=
  createNewUser_already_exists_spec initStore "A48280" "Someone" "tok-2"
    (createUserObj "André Jesus") (by decide)

/-- C10: the module-load state is not empty: it holds exactly the three
seeded users (each with empty groups), an empty game catalog, and three
pre-issued tokens in one-to-one correspondence with those users, so
`tokenToUserId` already succeeds on the three tokens and `getUser` on the
three ids before any `createNewUser` call. -/
theorem initStore_seeded_users_and_tokens :
    initStore.users =
      [("A48280", { name := "André Jesus", groups := [] }),
       ("A48287", { name := "Nyckollas Brandão", groups := [] }),
       ("A48309", { name := "André Santos", groups := [] })] ∧
    initStore.games = [] ∧
    tokenToUserId initStore "4869fdf7-0e62-46a2-872c-f0dc60fc2c81" =
      some "A48280" ∧
    tokenToUserId initStore "3e39bce8-07d1-4c05-9ee3-5587e6b8e2e7" =
      some "A48287" ∧
    tokenToUserId initStore "5d389af1-06db-4401-8aef-36d8d6428f31" =
      some "A48309" ∧
    getUser initStore "A48280" = .ok { name := "André Jesus", groups := [] } ∧
    getUser initStore "A48287" =
      .ok { name := "Nyckollas Brandão", groups := [] } ∧
    getUser initStore "A48309" = .ok { name := "André Santos", groups := [] } ∧
    initStore.tokens.map Prod.snd = ["A48280", "A48287", "A48309"] ∧
    (initStore.tokens.map Prod.snd).Nodup ∧
    (initStore.tokens.map Prod.fst).Nodup := by decide

/-- C8: every storage operation of the module preserves the invariant that
any `gameId` referenced in any group of any user is a key of the shared
game catalog — on success and on failure alike (including
`addGameToGroup`'s catalog write that persists when the group lookup
throws, which only grows the catalog). -/
theorem storage_ops_preserve_catalog_invariant (s : Store)
    (userId userName token groupId groupName groupDescription gameId : String)
    (gameObj : Game) (newName newDesc : Option String)
    (h : storeInv s = true) :
    storeInv (createNewUser s userId userName token).1 = true ∧
    storeInv (createGroup s userId groupId groupName groupDescription).1 = true ∧
    storeInv (editGroup s userId groupId newName newDesc).1 = true ∧
    storeInv (deleteGroup s userId groupId).1 = true ∧
    storeInv (addGameToGroup s userId groupId gameObj).1 = true ∧
    storeInv (removeGameFromGroup s userId groupId gameId).1 = true ∧
    storeInv (resetMem s) = true ∧
    storeInv (resetAllGroups s) = true := by
  have hp := (storeInv_iff_invP s).mp h
  exact ⟨(storeInv_iff_invP _).mpr (invP_createNewUser s userId userName token hp),
    (storeInv_iff_invP _).mpr
      (invP_createGroup s userId groupId groupName groupDescription hp),
    (storeInv_iff_invP _).mpr (invP_editGroup s userId groupId newName newDesc hp),
    (storeInv_iff_invP _).mpr (invP_deleteGroup s userId groupId hp),
    (storeInv_iff_invP _).mpr (invP_addGameToGroup s userId groupId gameObj hp),
    (storeInv_iff_invP _).mpr (invP_removeGameFromGroup s userId groupId gameId hp),
    (storeInv_iff_invP _).mpr (invP_resetMem s),
    (storeInv_iff_invP _).mpr (invP_resetAllGroups s)⟩

/-- Witness for C8: the invariant holds at the test-suite state and is
preserved there by every storage operation at concrete arguments
(the create conjuncts exercise the ALREADY_EXISTS failure paths, the
edit/delete/add/remove conjuncts the success paths on group "PG"). -/
theorem storage_ops_preserve_catalog_invariant_witness :
    storeInv (createNewUser demoStore "123456" "Nine" "tok-9").1 = true ∧
    storeInv (createGroup demoStore "123456" "PG" "Second" "another").1 = true ∧
    storeInv (editGroup demoStore "123456" "PG" (some "New") none).1 = true ∧
    storeInv (deleteGroup demoStore "123456" "PG").1 = true ∧
    storeInv (addGameToGroup demoStore "123456" "PG"
      { id := "g2", name := "Chess", rest := "" }).1 = true ∧
    storeInv (removeGameFromGroup demoStore "123456" "PG" "I9azM1kA6l").1 = true ∧
    storeInv (resetMem demoStore) = true ∧
    storeInv (resetAllGroups demoStore) = true :=
  storage_ops_preserve_catalog_invariant demoStore "123456" "Nine" "tok-9" "PG"
    "Second" "another" "I9azM1kA6l" { id := "g2", name := "Chess", rest := "" }
    (some "New") none (by decide)

/-- Failure case of `removeGameFromGroup`, shared by several theorems:
when the `gameId` is absent from this group's game map the call fails
NOT_FOUND carrying the id and returns the store unchanged, whatever the
catalog holds. -/
theorem removeGame_notfound_of_absent (s : Store) (userId groupId gameId : String)
    (u : User) (g : Group)
    (hu : JsMap.get s.users userId = some u)
    (hg : JsMap.get u.groups groupId = some g)
    (habs : JsMap.get g.games gameId = none) :
    removeGameFromGroup s userId groupId gameId =
      (s, .error ⟨.NOT_FOUND, [("gameId", gameId)]⟩) := by
  have hgg : getGameFromGroup s userId groupId gameId =
      .error ⟨.NOT_FOUND, [("gameId", gameId)]⟩ := by
    cases hc : JsMap.get s.games gameId with
    | none => simp [getGameFromGroup, getGroupFromUser, getUser, hu, hg, hc]
    | some gm =>
      simp [getGameFromGroup, getGroupFromUser, getUser, hu, hg, hc, habs,
        strTruthy]
  simp [removeGameFromGroup, hgg]

/-- C9: `removeGameFromGroup` (i) fails NOT_FOUND carrying the `gameId`
and leaves the store untouched whenever the id is absent from THIS group's
game map — no matter whether the id is a key of the global catalog — and
(ii) on success returns the catalog record, deletes exactly the one
reference in that group's game map, and changes nothing else: catalog
(including the removed game's record), tokens, every other user, every
other group of this user, and the group's own name and description are
all preserved. -/
theorem removeGameFromGroup_spec (s : Store) (userId groupId gameId : String)
    (u : User) (g : Group)
    (hu : JsMap.get s.users userId = some u)
    (hg : JsMap.get u.groups groupId = some g) :
    (JsMap.get g.games gameId = none →
      removeGameFromGroup s userId groupId gameId =
        (s, .error ⟨.NOT_FOUND, [("gameId", gameId)]⟩)) ∧
    (∀ (gm : Game) (nm : String),
      JsMap.get g.games gameId = some nm → nm ≠ "" →
      JsMap.get s.games gameId = some gm →
      (g.games.map Prod.fst).Nodup →
      (removeGameFromGroup s userId groupId gameId).2 = .ok gm ∧
      (removeGameFromGroup s userId groupId gameId).1.games = s.games ∧
      (removeGameFromGroup s userId groupId gameId).1.tokens = s.tokens ∧
      JsMap.get (removeGameFromGroup s userId groupId gameId).1.games gameId =
        some gm ∧
      (∀ uid2, uid2 ≠ userId →
        JsMap.get (removeGameFromGroup s userId groupId gameId).1.users uid2 =
          JsMap.get s.users uid2) ∧
      (∃ u2, JsMap.get (removeGameFromGroup s userId groupId gameId).1.users
          userId = some u2 ∧
        u2.name = u.name ∧
        (∀ gid2, gid2 ≠ groupId →
          JsMap.get u2.groups gid2 = JsMap.get u.groups gid2) ∧
        (∃ g2, JsMap.get u2.groups groupId = some g2 ∧
          g2.name = g.name ∧ g2.description = g.description ∧
          JsMap.get g2.games gameId = none ∧
          (∀ x, x ≠ gameId →
            JsMap.get g2.games x = JsMap.get g.games x)))) := by
  constructor
  · intro habs
    exact removeGame_notfound_of_absent s userId groupId gameId u g hu hg habs
  · intro gm nm hnm hne hcat hnd
    have hgg : getGameFromGroup s userId groupId gameId = .ok gm := by
      simp [getGameFromGroup, getGroupFromUser, getUser, hu, hg, hnm, hcat,
        strTruthy, hne]
    have hres : removeGameFromGroup s userId groupId gameId = ({ s with users := JsMap.set s.users userId { u with groups := JsMap.set u.groups groupId { g with games := JsMap.del g.games gameId } } }, .ok gm) := by
      simp [removeGameFromGroup, hgg, hu, hg]
    rw [hres]
    refine ⟨rfl, rfl, rfl, hcat, ?_, ?_⟩
    · intro uid2 h2
      exact JsMap.get_set_ne s.users _ h2
    · refine ⟨_, JsMap.get_set_self s.users userId _, rfl, ?_, ?_⟩
      · intro gid2 h2
        exact JsMap.get_set_ne u.groups _ h2
      · refine ⟨_, JsMap.get_set_self u.groups groupId _, rfl, rfl, ?_, ?_⟩
        · exact JsMap.get_del_self_of_nodup hnd
        · intro x hx
          exact JsMap.get_del_ne g.games hx

/-- Witness for C9: on `catalogOnlyStore` the game is in the catalog but
not referenced in group "PG", and removal fails NOT_FOUND with the store
unchanged; on `demoStore` the removal of the referenced game succeeds with
the catalog left intact. -/
theorem removeGameFromGroup_spec_witness :
    removeGameFromGroup catalogOnlyStore "123456" "PG" "I9azM1kA6l" =
      (catalogOnlyStore, .error ⟨.NOT_FOUND, [("gameId", "I9azM1kA6l")]⟩) ∧
    (removeGameFromGroup demoStore "123456" "PG" "I9azM1kA6l").2 =
      .ok game1 ∧
    (removeGameFromGroup demoStore "123456" "PG" "I9azM1kA6l").1.games =
      demoStore.games := by
  have h1 := (removeGameFromGroup_spec catalogOnlyStore "123456" "PG"
    "I9azM1kA6l"
    { name := "Paulão",
      groups := [("PG",
        { name := some "Paulão Games",
          description := some "This is a description", games := [] })] }
    { name := some "Paulão Games",
      description := some "This is a description", games := [] }
    (by decide) (by decide)).1 (by decide)
  have h2 := (removeGameFromGroup_spec demoStore "123456" "PG" "I9azM1kA6l"
    { name := "Paulão",
      groups := [("PG",
        { name := some "Paulão Games",
          description := some "This is a description",
          games := [(game1.id, game1.name)] })] }
    { name := some "Paulão Games",
      description := some "This is a description",
      games := [(game1.id, game1.name)] }
    (by decide) (by decide)).2 game1 "Monopoly Skyrim"
    (by decide) (by decide) (by decide) (by decide)
  exact ⟨h1, h2.1, h2.2.1⟩

/-- C7 counterexample: with a game record whose `name` is the empty string
(a falsy value), add-then-remove does NOT restore the group's game map:
the group map was empty before the add, but `removeGameFromGroup` fails
NOT_FOUND (because `!gameName` treats the empty-string reference as
missing) and the reference is left behind, so the map afterwards still
holds the entry.  This refutes the claim as stated, which quantifies over
every record of the gameId. -/
theorem addRemove_with_empty_name_not_restored :
    (getGroupFromUser demoStoreNoGame "123456" "PG").map Group.games =
      .ok [] ∧
    (removeGameFromGroup
        (addGameToGroup demoStoreNoGame "123456" "PG"
          { id := "g1", name := "", rest := "" }).1
        "123456" "PG" "g1").2 =
      .error ⟨.NOT_FOUND, [("gameId", "g1")]⟩ ∧
    (getGroupFromUser
        (removeGameFromGroup
          (addGameToGroup demoStoreNoGame "123456" "PG"
            { id := "g1", name := "", rest := "" }).1
          "123456" "PG" "g1").1
        "123456" "PG").map Group.games = .ok [("g1", "")] := by decide

/-- C7 amended: for every existing user and group, if the `gameId` is not
yet in the group's game map and the added record's `name` is a non-empty
string, then `addGameToGroup` followed by `removeGameFromGroup` of that id
succeeds, restores the group's game map to its pre-add state, and a second
`removeGameFromGroup` of the same id then fails NOT_FOUND carrying the id. -/
theorem add_then_remove_restores_group (s : Store) (userId groupId : String)
    (gameObj : Game) (u : User) (g : Group)
    (hu : JsMap.get s.users userId = some u)
    (hg : JsMap.get u.groups groupId = some g)
    (habs : JsMap.get g.games gameObj.id = none)
    (hname : gameObj.name ≠ "") :
    (addGameToGroup s userId groupId gameObj).2 = .ok gameObj ∧
    (removeGameFromGroup (addGameToGroup s userId groupId gameObj).1
        userId groupId gameObj.id).2 = .ok gameObj ∧
    (∃ u2 g2,
      JsMap.get (removeGameFromGroup (addGameToGroup s userId groupId gameObj).1
          userId groupId gameObj.id).1.users userId = some u2 ∧
      JsMap.get u2.groups groupId = some g2 ∧
      g2.games = g.games) ∧
    (removeGameFromGroup
        (removeGameFromGroup (addGameToGroup s userId groupId gameObj).1
          userId groupId gameObj.id).1
        userId groupId gameObj.id).2 =
      .error ⟨.NOT_FOUND, [("gameId", gameObj.id)]⟩ := by
  have ha2 : (addGameToGroup s userId groupId gameObj).2 = .ok gameObj := by
    simp [addGameToGroup, hu, hg]
  have ha1 : (addGameToGroup s userId groupId gameObj).1 = { s with games := JsMap.set s.games gameObj.id gameObj, users := JsMap.set s.users userId { u with groups := JsMap.set u.groups groupId { g with games := JsMap.set g.games gameObj.id gameObj.name } } } := by
    simp [addGameToGroup, hu, hg]
  have hdel : JsMap.del (JsMap.set g.games gameObj.id gameObj.name) gameObj.id = g.games :=
    JsMap.del_set_of_get_none g.games gameObj.name habs
  have hu1 : JsMap.get (addGameToGroup s userId groupId gameObj).1.users userId = some { u with groups := JsMap.set u.groups groupId { g with games := JsMap.set g.games gameObj.id gameObj.name } } := by
    rw [ha1]
    exact JsMap.get_set_self s.users userId _
  have hcat1 : JsMap.get (addGameToGroup s userId groupId gameObj).1.games gameObj.id = some gameObj := by
    rw [ha1]
    exact JsMap.get_set_self s.games gameObj.id gameObj
  have hggr : getGameFromGroup (addGameToGroup s userId groupId gameObj).1 userId groupId gameObj.id = .ok gameObj := by
    simp [getGameFromGroup, getGroupFromUser, getUser, hu1, hcat1,
      JsMap.get_set_self, strTruthy, hname]
  have hrem2 : (removeGameFromGroup (addGameToGroup s userId groupId gameObj).1 userId groupId gameObj.id).2 = .ok gameObj := by
    rw [ha1] at hggr ⊢
    simp [removeGameFromGroup, hggr, JsMap.get_set_self]
  have hrem1 : (removeGameFromGroup (addGameToGroup s userId groupId gameObj).1 userId groupId gameObj.id).1 = { s with games := JsMap.set s.games gameObj.id gameObj, users := JsMap.set (JsMap.set s.users userId { u with groups := JsMap.set u.groups groupId { g with games := JsMap.set g.games gameObj.id gameObj.name } }) userId { u with groups := JsMap.set (JsMap.set u.groups groupId { g with games := JsMap.set g.games gameObj.id gameObj.name }) groupId { g with games := g.games } } } := by
    rw [ha1] at hggr ⊢
    simp [removeGameFromGroup, hggr, JsMap.get_set_self, hdel]
  refine ⟨ha2, hrem2, ?_, ?_⟩
  · rw [hrem1]
    exact ⟨_, _, JsMap.get_set_self _ userId _, JsMap.get_set_self _ groupId _,
      rfl⟩
  · rw [hrem1]
    have hfin := removeGame_notfound_of_absent
      { s with games := JsMap.set s.games gameObj.id gameObj, users := JsMap.set (JsMap.set s.users userId { u with groups := JsMap.set u.groups groupId { g with games := JsMap.set g.games gameObj.id gameObj.name } }) userId { u with groups := JsMap.set (JsMap.set u.groups groupId { g with games := JsMap.set g.games gameObj.id gameObj.name }) groupId { g with games := g.games } } }
      userId groupId gameObj.id
      { u with groups := JsMap.set (JsMap.set u.groups groupId { g with games := JsMap.set g.games gameObj.id gameObj.name }) groupId { g with games := g.games } }
      { g with games := g.games }
      (JsMap.get_set_self _ userId _) (JsMap.get_set_self _ groupId _) habs
    rw [hfin]

/-- Witness for C7 at the pre-add test state with the test-suite game. -/
theorem add_then_remove_restores_group_witness :
    (addGameToGroup demoStoreNoGame "123456" "PG" game1).2 = .ok game1 ∧
    (removeGameFromGroup (addGameToGroup demoStoreNoGame "123456" "PG" game1).1
        "123456" "PG" game1.id).2 = .ok game1 ∧
    (∃ u2 g2,
      JsMap.get (removeGameFromGroup
          (addGameToGroup demoStoreNoGame "123456" "PG" game1).1
          "123456" "PG" game1.id).1.users "123456" = some u2 ∧
      JsMap.get u2.groups "PG" = some g2 ∧
      g2.games = []) ∧
    (removeGameFromGroup
        (removeGameFromGroup
          (addGameToGroup demoStoreNoGame "123456" "PG" game1).1
          "123456" "PG" game1.id).1
        "123456" "PG" game1.id).2 =
      .error ⟨.NOT_FOUND, [("gameId", game1.id)]⟩ :=
  add_then_remove_restores_group demoStoreNoGame "123456" "PG" game1
    { name := "Paulão",
      groups := [("PG",
        { name := some "Paulão Games",
          description := some "This is a description", games := [] })] }
    { name := some "Paulão Games",
      description := some "This is a description", games := [] }
    (by decide) (by decide) (by decide) (by decide)

/-- C4 counterexample: a present body property of the wrong declared
primitive type is NOT always reported: since the source guards the type
check with `value && ...`, a falsy wrong-typed value (here the number `0`
against declared type `"string"` in the editGroup schema, where the field
is optional) escapes both checks and validation passes with no
BAD_REQUEST at all. -/
theorem validateRequest_misses_falsy_wrong_type :
    editGroupSchema.body =
      some [("newGroupName", { type := "string", required := false }),
            ("newGroupDescription", { type := "string", required := false })] ∧
    JsMap.get [("newGroupName", JsVal.num 0)] "newGroupName" =
      some (JsVal.num 0) ∧
    typeofJs (JsVal.num 0) = "number" ∧
    validateRequest editGroupSchema [] [("newGroupName", JsVal.num 0)] =
      .ok () := by decide

/-- C4 amended: validation runs before the storage handler and aggregates
every detected violation into one BAD_REQUEST carrying a field-to-reason
map: a required body property whose value is absent is reported as
"required property missing", a present TRUTHY value of the wrong declared
primitive type is reported with a wrong-type reason (falsy wrong-typed
values escape the type check), a body property not in the schema is
reported as unknown; on any validation failure the handler never runs and
the store is unchanged; and a createGroup request missing only
`groupDescription` fails BAD_REQUEST with exactly
`{groupDescription: "required property missing"}`. -/
theorem validateRequest_aggregates_violations (schema : ReqSchema)
    (sb : JsMap PropSchema) (query : JsMap String) (body : JsMap JsVal)
    (p : String) (ps : PropSchema)
    (hsb : schema.body = some sb) (hnd : (sb.map Prod.fst).Nodup) :
    (JsMap.get sb p = some ps → ps.required = true →
      JsMap.get body p = none →
      ∃ info, validateRequest schema query body =
          .error ⟨.BAD_REQUEST, info⟩ ∧
        JsMap.get info p = some "required property missing") ∧
    (∀ v, JsMap.get sb p = some ps → JsMap.get body p = some v →
      jsTruthy v = true → typeofJs v ≠ ps.type →
      ∃ info, validateRequest schema query body =
          .error ⟨.BAD_REQUEST, info⟩ ∧
        JsMap.get info p = some ("wrong type. expected " ++ ps.type ++
          ". instead got " ++ typeofJs v)) ∧
    (∀ v, (p, v) ∈ body → JsMap.get sb p = none →
      ∃ info, validateRequest schema query body =
          .error ⟨.BAD_REQUEST, info⟩ ∧
        JsMap.get info p = some "unknown body property") ∧
    (∀ (α : Type) (handler : Store → Store × Except Err α) (st : Store)
      (e : Err), validateRequest schema query body = .error e →
      runRoute schema query body handler st = (st, .error e)) ∧
    validateRequest createGroupSchema []
        [("groupName", JsVal.str "Paulão Games")] =
      .error ⟨.BAD_REQUEST,
        [("groupDescription", "required property missing")]⟩ := by
  have hreq : requestInfo schema query body =
      body.foldl (validateUnknownStep sb)
        (sb.foldl (validateBodyStep body) (queryInfo schema query)) := by
    simp [requestInfo, hsb]
  refine ⟨?_, ?_, ?_, ?_, by decide⟩
  · intro hget hreqd habs
    have hstep : ∀ i : JsMap String, validateBodyStep body i (p, ps) =
        JsMap.set i p "required property missing" := by
      intro i
      simp [validateBodyStep, habs, hreqd, jsTruthyOpt]
    have h1 : JsMap.get (requestInfo schema query body) p =
        some "required property missing" := by
      rw [hreq, unknownloop_preserve sb body (by simp [hget])]
      exact bodyloop_get body sb hnd (JsMap.get_mem hget) hstep _
    refine ⟨requestInfo schema query body, ?_, h1⟩
    simp [validateRequest, JsMap.length_pos_of_get_some h1]
  · intro v hget hgetbody htruthy htype
    have hstep : ∀ i : JsMap String, validateBodyStep body i (p, ps) =
        JsMap.set i p ("wrong type. expected " ++ ps.type ++
          ". instead got " ++ typeofJs v) := by
      intro i
      simp [validateBodyStep, hgetbody, jsTruthyOpt, typeofOpt, htruthy, htype]
    have h1 : JsMap.get (requestInfo schema query body) p =
        some ("wrong type. expected " ++ ps.type ++ ". instead got " ++
          typeofJs v) := by
      rw [hreq, unknownloop_preserve sb body (by simp [hget])]
      exact bodyloop_get body sb hnd (JsMap.get_mem hget) hstep _
    refine ⟨requestInfo schema query body, ?_, h1⟩
    simp [validateRequest, JsMap.length_pos_of_get_some h1]
  · intro v hmem hnone
    have h1 : JsMap.get (requestInfo schema query body) p =
        some "unknown body property" := by
      rw [hreq]
      exact unknownloop_get sb body hnone _ (Or.inl ⟨v, hmem⟩)
    refine ⟨requestInfo schema query body, ?_, h1⟩
    simp [validateRequest, JsMap.length_pos_of_get_some h1]
  · intro α handler st e hvr
    simp [runRoute, hvr]

/-- Witness for C4: one createGroup request carrying all three kinds of
violation at once — truthy wrong-typed `groupName`, absent required
`groupDescription`, unknown property `bogus` — has each of them reported
in the same aggregated BAD_REQUEST map, and the route handler never runs. -/
theorem validateRequest_aggregates_violations_witness :
    (∃ info, validateRequest createGroupSchema []
        [("groupName", JsVal.num 5), ("bogus", JsVal.str "x")] =
        .error ⟨.BAD_REQUEST, info⟩ ∧
      JsMap.get info "groupDescription" = some "required property missing") ∧
    (∃ info, validateRequest createGroupSchema []
        [("groupName", JsVal.num 5), ("bogus", JsVal.str "x")] =
        .error ⟨.BAD_REQUEST, info⟩ ∧
      JsMap.get info "groupName" =
        some "wrong type. expected string. instead got number") ∧
    (∃ info, validateRequest createGroupSchema []
        [("groupName", JsVal.num 5), ("bogus", JsVal.str "x")] =
        .error ⟨.BAD_REQUEST, info⟩ ∧
      JsMap.get info "bogus" = some "unknown body property") ∧
    runRoute createGroupSchema []
        [("groupName", JsVal.num 5), ("bogus", JsVal.str "x")]
        (fun s => (s, .ok ())) initStore =
      (initStore, .error ⟨.BAD_REQUEST,
        [("groupName", "wrong type. expected string. instead got number"),
         ("groupDescription", "required property missing"),
         ("bogus", "unknown body property")]⟩) := by
  refine ⟨?_, ?_, ?_, ?_⟩
  · exact (validateRequest_aggregates_violations createGroupSchema
      [("groupName", { type := "string", required := true }),
       ("groupDescription", { type := "string", required := true })] []
      [("groupName", JsVal.num 5), ("bogus", JsVal.str "x")]
      "groupDescription" { type := "string", required := true }
      (by decide) (by decide)).1 (by decide) (by decide) (by decide)
  · exact (validateRequest_aggregates_violations createGroupSchema
      [("groupName", { type := "string", required := true }),
       ("groupDescription", { type := "string", required := true })] []
      [("groupName", JsVal.num 5), ("bogus", JsVal.str "x")]
      "groupName" { type := "string", required := true }
      (by decide) (by decide)).2.1 (JsVal.num 5)
      (by decide) (by decide) (by decide) (by decide)
  · exact (validateRequest_aggregates_violations createGroupSchema
      [("groupName", { type := "string", required := true }),
       ("groupDescription", { type := "string", required := true })] []
      [("groupName", JsVal.num 5), ("bogus", JsVal.str "x")]
      "bogus" { type := "string", required := true }
      (by decide) (by decide)).2.2.1 (JsVal.str "x")
      (by decide) (by decide)
  · exact (validateRequest_aggregates_violations createGroupSchema
      [("groupName", { type := "string", required := true }),
       ("groupDescription", { type := "string", required := true })] []
      [("groupName", JsVal.num 5), ("bogus", JsVal.str "x")]
      "bogus" { type := "string", required := true }
      (by decide) (by decide)).2.2.2.1 Unit (fun s => (s, .ok ())) initStore
      ⟨.BAD_REQUEST,
        [("groupName", "wrong type. expected string. instead got number"),
         ("groupDescription", "required property missing"),
         ("bogus", "unknown body property")]⟩ (by decide)

end Borga
